import Mathlib

/-!
# Verification of the Ark tunnel manager (`src/tools/ark_tunnel.py`)

A shallow embedding of the `ArkTunnel` class.  External effects (the spawned
`ssh` processes, `subprocess.run`, `urllib` probes, sleeps) are modelled by
explicit oracle parameters describing the observable behaviour of each
external call; the Python control flow is translated statement by statement.

Conventions:
* An OS process handle is identified by a `pid`; `Proc.port` records which
  local port the spawned forwarding command was given (the first element of
  the `-L` argument), so that statements can talk about which service a
  tracked process forwards.  Python's `list.remove(obj)` removes the first
  element identical to `obj`; since distinct `Popen` objects are never equal,
  this is removal of the first element with the same `pid` (pids are unique
  among simultaneously tracked handles).
* `poll() is None` (process alive) is modelled by a liveness oracle
  `dead : Nat → Bool` giving the result of sampling a pid during one cycle.
* A `try/except Exception` block that returns a value is translated to a
  total function over an outcome type with explicit exception constructors.
-/

namespace ArkTunnel

/-- A tracked forwarding process: the OS handle identity (`pid`) and the
local port its spawn command forwards. -/
structure Proc where
  pid : Nat
  port : Nat
deriving DecidableEq, Repr

/-- One entry of the `self.services` dict: remote port, display name, URL. -/
structure ServiceConfig where
  remote : Nat
  name : String
  url : String
deriving DecidableEq, Repr

/-- The `self.services` dict of `ArkTunnel.__init__`, as an insertion-ordered
association list (Python dicts preserve insertion order). -/
def services : List (Nat × ServiceConfig) :=
  [ (8080, ⟨8080, "Frontend (The Ark UI)", "http://localhost:8080"⟩),
    (8001, ⟨8001, "Backend API", "http://localhost:8001"⟩),
    (8434, ⟨8434, "Ollama AI API", "http://localhost:8434/api/tags"⟩) ]

/-- The mutable fields of `ArkTunnel` relevant to supervision:
`self.processes` and `self.running`. -/
structure TunnelState where
  processes : List Proc
  running : Bool
deriving DecidableEq, Repr

/-- Observable behaviour of one `subprocess.Popen` call inside
`create_tunnel` together with the statements up to the grace-period check:
* `raised`: `Popen` itself raised, nothing was appended to `self.processes`;
* `spawnedRaised pid`: the process object was appended, then an exception
  was raised before `create_tunnel` could return normally;
* `spawned pid`: the process was appended and the grace-period liveness
  check ran (its result is given by the `dead` oracle at `pid`). -/
inductive SpawnBehavior where
  | raised
  | spawnedRaised (pid : Nat)
  | spawned (pid : Nat)
deriving DecidableEq, Repr

/-- Result of `create_tunnel`: the returned boolean, the updated
`self.processes` list, and the diagnostic lines printed. -/
structure CreateResult where
  ok : Bool
  procs : List Proc
  output : List String
deriving DecidableEq, Repr

/-- The failure line printed when the spawned process exited within the
grace period, carrying the captured `stderr` text. -/
def spawnFailureMsg (name err : String) : String :=
  "Failed to create tunnel for " ++ name ++ ": " ++ err

/-- The line printed when the tunnel survived the grace period. -/
def spawnOkMsg (name : String) (localPort : Nat) : String :=
  name ++ " tunnel active on port " ++ toString localPort

/-- The line printed by the `except Exception` handler of `create_tunnel`. -/
def spawnErrMsg (name : String) : String :=
  "Error creating tunnel for " ++ name

/-- `ArkTunnel.create_tunnel(local_port, remote_port, service_name)`
(lines 53–81).  The process object is appended to `self.processes` *before*
the 2-second grace sleep; on a death within the grace period the function
returns `False` (printing the captured stderr) but the dead process stays in
the list.  The catch-all `except` returns `False`.  `dead pid` is the result
of `process.poll() is not None` at the grace-period sample; `stderrOf pid`
is the captured error stream text. -/
def create_tunnel (dead : Nat → Bool) (stderrOf : Nat → String)
    (b : SpawnBehavior) (localPort remotePort : Nat) (name : String)
    (procs : List Proc) : CreateResult :=
  match b with
  | .raised => ⟨false, procs, [spawnErrMsg name]⟩
  | .spawnedRaised pid => ⟨false, procs ++ [⟨pid, localPort⟩], [spawnErrMsg name]⟩
  | .spawned pid =>
      if dead pid then
        ⟨false, procs ++ [⟨pid, localPort⟩], [spawnFailureMsg name (stderrOf pid)]⟩
      else
        ⟨true, procs ++ [⟨pid, localPort⟩], [spawnOkMsg name localPort]⟩

/-- `self.processes.remove(process)`: remove the first element with the given
pid (Python object identity; see the header comment). -/
def removePid : List Proc → Nat → List Proc
  | [], _ => []
  | p :: ps, pid => if p.pid = pid then ps else p :: removePid ps pid

/-- One Health-Monitor cycle's external environment: the liveness oracle for
`poll()`, an oracle for an unexpected exception being raised while handling a
given pid (the `except Exception` arm of `monitor_tunnels`), the behaviours
of the `Popen` calls issued by respawns (indexed by respawn count within the
cycle), and the captured stderr texts. -/
structure CycleEnv where
  dead : Nat → Bool
  pollExc : Nat → Bool
  spawn : Nat → SpawnBehavior
  stderrOf : Nat → String

/-- Result of one pass of the `for i, process in enumerate(self.processes)`
loop of `monitor_tunnels`: the final `self.processes`, the `local_port`
arguments of the `create_tunnel` calls issued (in order), and whether an
exception escaped the loop into the `except Exception` handler. -/
structure CycleResult where
  procs : List Proc
  respawned : List Nat
  errored : Bool
deriving DecidableEq, Repr

/-- The body of one monitor cycle (lines 130–141).  `k` is the position the
Python list iterator fetches next (which equals the `enumerate` counter `i`);
mutations of `self.processes` inside the loop are visible to the iterator.
A dead process is removed (first identical element) and `create_tunnel` is
called with `local_port = list(self.services.keys())[i]` — the key at the
*iteration index*, not the port the dead process forwards; the new process is
appended at the end of the list and is itself reached by the same loop.
`fuel` bounds the number of loop iterations; since every iteration advances
`k` by one and never lengthens the list (one removal, at most one append),
`fuel = procs.length` at the initial call is never exhausted. -/
def monitorCycleAux (e : CycleEnv) : Nat → Nat → List Proc → List Nat → Nat → CycleResult
  | 0, k, procs, log, _ =>
    if k < procs.length then ⟨procs, log, true⟩ else ⟨procs, log, false⟩
  | f + 1, k, procs, log, nspawn =>
    if k < procs.length then
      let p := procs.getD k ⟨0, 0⟩
      if e.pollExc p.pid then
        ⟨procs, log, true⟩
      else if e.dead p.pid then
        if k < services.length then
          let sv := services.getD k (0, ⟨0, "", ""⟩)
          let r := create_tunnel e.dead e.stderrOf (e.spawn nspawn)
                     sv.1 sv.2.remote sv.2.name (removePid procs p.pid)
          monitorCycleAux e f (k + 1) r.procs (log ++ [sv.1]) (nspawn + 1)
        else
          ⟨procs, log, true⟩
      else
        monitorCycleAux e f (k + 1) procs log nspawn
    else
      ⟨procs, log, false⟩

/-- One full Health-Monitor cycle over the current `self.processes`. -/
def monitorCycle (e : CycleEnv) (procs : List Proc) : CycleResult :=
  monitorCycleAux e procs.length 0 procs [] 0

/-- The `while self.running` loop of `monitor_tunnels` (lines 128–148), run
against a finite schedule of cycle environments.  Each executed cycle is
recorded together with the sleep that follows it: `time.sleep(10)` after a
clean cycle, `time.sleep(5)` in the `except Exception` handler (the normal
10-second sleep is skipped when the cycle raised).  The loop stops as soon as
`running` is observed false; it never writes `running` itself. -/
def monitorRun : List CycleEnv → TunnelState → TunnelState × List (CycleResult × Nat)
  | [], s => (s, [])
  | e :: rest, s =>
    if s.running then
      let c := monitorCycle e s.processes
      let d := if c.errored then 5 else 10
      let z := monitorRun rest ⟨c.procs, s.running⟩
      (z.1, (c, d) :: z.2)
    else
      (s, [])

/-- Observable behaviour of the `subprocess.run` call of `check_ssh_key`:
either the command completed with a return code, or an exception (timeout
included) was raised. -/
def check_ssh_key (o : Except String Int) : Bool :=
  match o with
  | .ok rc => rc == 0
  | .error _ => false

/-- Environment of one `start_tunnels` call: the precheck outcome and the
behaviours of the per-service `Popen` calls (indexed by attempt order). -/
structure StartEnv where
  precheck : Except String Int
  dead : Nat → Bool
  spawn : Nat → SpawnBehavior
  stderrOf : Nat → String

/-- Result of `start_tunnels`: the returned boolean, the resulting state and
the per-service attempt record `(local_port, create_tunnel result)` in
attempt order (observable through the per-service success/failure lines). -/
structure StartResult where
  ok : Bool
  state : TunnelState
  attempts : List (Nat × Bool)
deriving DecidableEq, Repr

/-- The `for local_port, config in self.services.items()` loop of
`start_tunnels` (lines 101–103): every spec is attempted regardless of
earlier outcomes; there is no early exit. -/
def startLoop (env : StartEnv) : List (Nat × ServiceConfig) → List Proc → Nat →
    List Proc × List (Nat × Bool)
  | [], procs, _ => (procs, [])
  | sv :: rest, procs, n =>
    let r := create_tunnel env.dead env.stderrOf (env.spawn n)
               sv.1 sv.2.remote sv.2.name procs
    let z := startLoop env rest r.procs (n + 1)
    (z.1, (sv.1, r.ok) :: z.2)

/-- `ArkTunnel.start_tunnels` (lines 83–124).  If the precheck fails the
function returns `False` before touching `self.running` or spawning
anything.  Otherwise `self.running` is set `True`, every service is
attempted, and the function returns `True` iff `success_count > 0`;
`self.running` stays `True` even when zero tunnels came up. -/
def start_tunnels (env : StartEnv) (s : TunnelState) : StartResult :=
  if check_ssh_key env.precheck then
    let z := startLoop env services s.processes 0
    let successCount := (z.2.filter (·.2)).length
    ⟨decide (0 < successCount), ⟨z.1, true⟩, z.2⟩
  else
    ⟨false, s, []⟩

/-- Observable behaviour of terminating one tracked process in
`stop_tunnels`: `terminate()` then `wait(timeout=5)` succeeded; or the wait
timed out (`TimeoutExpired`) and the process was force-killed; or some other
exception was raised and only logged. -/
inductive TermBehavior where
  | ok
  | timeoutKill
  | raisedTerm
deriving DecidableEq, Repr

/-- Primitive events emitted while stopping one process: a graceful
terminate was issued, a force-kill was issued, or an error was logged. -/
inductive StopEvent where
  | term (pid : Nat)
  | kill (pid : Nat)
  | errLog (pid : Nat)
deriving DecidableEq, Repr

/-- The per-process body of the `for process in self.processes` loop of
`stop_tunnels`; each iteration has its own `try/except`, so a failure for
one process never aborts the handling of the others. -/
def stopOne (env : Nat → TermBehavior) (p : Proc) : List StopEvent :=
  match env p.pid with
  | .ok => [.term p.pid]
  | .timeoutKill => [.term p.pid, .kill p.pid]
  | .raisedTerm => [.term p.pid, .errLog p.pid]

/-- `ArkTunnel.stop_tunnels` (lines 150–165): sets `self.running = False`,
terminates every tracked process (force-killing those whose wait timed out),
then clears `self.processes`.  Returns the new state and the emitted
events. -/
def stop_tunnels (env : Nat → TermBehavior) (s : TunnelState) :
    TunnelState × List StopEvent :=
  (⟨[], false⟩, (s.processes.map (stopOne env)).flatten)

/-- The fields of a parsed JSON body that `test_services` reads:
`data.get('models', [])` (the list is abstracted to its elements' names) and
`data.get('database', 'unknown')` (`none` models an absent key). -/
structure BodyData where
  models : List String
  database : Option String
deriving DecidableEq, Repr

/-- Observable behaviour of `urllib.request.urlopen` (plus reading and
parsing the body) for one service: an exception (timeout, connection
refused, transport error) with its message, or a response with a status code
and a body; `none` for the body models a read/parse failure
(`json.loads` raising). -/
inductive ProbeOutcome where
  | exc (msg : String)
  | resp (code : Nat) (body : Option BodyData)
deriving DecidableEq, Repr

/-- Lines printed by `test_services` for one service. -/
inductive ReportLine where
  | healthy (name : String)
  | modelCount (n : Nat)
  | dbStatus (s : String)
  | httpError (name : String) (code : Nat)
  | failed (name : String) (msg : String)
deriving DecidableEq, Repr

/-- The URL `test_services` requests for a given local port (lines 176–181):
`/api/tags` for 8434, `/health` for 8001, the root otherwise. -/
def probeUrl (localPort : Nat) : String :=
  if localPort = 8434 then "http://localhost:" ++ toString localPort ++ "/api/tags"
  else if localPort = 8001 then "http://localhost:" ++ toString localPort ++ "/health"
  else "http://localhost:" ++ toString localPort

/-- The per-service body of the `test_services` loop (lines 175–199).  The
whole body sits in one `try/except Exception`, so every outcome — including
timeouts, refused connections and JSON parse failures — produces report
lines and nothing propagates to the caller.  Note that on a 200 response the
healthy line is printed *before* the body is parsed, so an unparseable body
yields both a healthy line and a failure line. -/
def probeService (env : Nat → ProbeOutcome) (localPort : Nat)
    (cfg : ServiceConfig) : List ReportLine :=
  match env localPort with
  | .exc msg => [.failed cfg.name msg]
  | .resp code body =>
    if code = 200 then
      if localPort = 8434 then
        match body with
        | some b => [.healthy cfg.name, .modelCount b.models.length]
        | none => [.healthy cfg.name, .failed cfg.name "json decode error"]
      else if localPort = 8001 then
        match body with
        | some b => [.healthy cfg.name, .dbStatus (b.database.getD "unknown")]
        | none => [.healthy cfg.name, .failed cfg.name "json decode error"]
      else
        [.healthy cfg.name]
    else
      [.httpError cfg.name code]

/-- `ArkTunnel.test_services` (lines 167–199): iterates over *all* entries of
`self.services` — it never consults `self.processes` — issuing one request
per configured service.  Returns the per-service report lines and the list
of URLs for which a network request was attempted. -/
def test_services (env : Nat → ProbeOutcome) :
    List (Nat × List ReportLine) × List String :=
  (services.map (fun sv => (sv.1, probeService env sv.1 sv.2)),
   services.map (fun sv => probeUrl sv.1))

/-! ## Concrete fixtures used by counterexamples and witnesses -/

/-- A fleet state right after a fully successful `start_tunnels`: the three
tracked processes, position-aligned with `services`. -/
def initProcs : List Proc := [⟨1, 8080⟩, ⟨2, 8001⟩, ⟨3, 8434⟩]

/-- Cycle environment in which the process forwarding 8080 (pid 1) has died
and its respawn comes up as pid 4 and stays alive. -/
def cycleEnvA : CycleEnv :=
  ⟨fun pid => pid == 1, fun _ => false, fun _ => .spawned 4, fun _ => "broken pipe"⟩

/-- Cycle environment in which the respawned 8080 forwarder (pid 4) has died
and the next spawn comes up as pid 5 and stays alive. -/
def cycleEnvB : CycleEnv :=
  ⟨fun pid => pid == 4, fun _ => false, fun _ => .spawned 5, fun _ => "broken pipe"⟩

/-- Cycle environment for the C1 witness: the process with pid 2 has died,
no sampling exception occurs, and the respawn comes up as pid 9 and lives. -/
def cycleEnvW1 : CycleEnv :=
  ⟨fun pid => pid == 2, fun _ => false, fun _ => .spawned 9, fun _ => ""⟩

/-- Cycle environment for the C4 counterexample: sampling the handle with
pid 1 raises an unexpected exception, while the process with pid 2 is dead. -/
def cycleEnvExc : CycleEnv :=
  ⟨fun pid => pid == 2, fun pid => pid == 1, fun _ => .spawned 9, fun _ => ""⟩

/-- First cycle environment for the C4 witness: sampling pid 1 raises. -/
def cycleEnvC4a : CycleEnv :=
  ⟨fun _ => false, fun pid => pid == 1, fun _ => .raised, fun _ => ""⟩

/-- Second cycle environment for the C4 witness: no exception, pid 2 is
dead, its respawn comes up as pid 7 and lives. -/
def cycleEnvC4b : CycleEnv :=
  ⟨fun pid => pid == 2, fun _ => false, fun _ => .spawned 7, fun _ => ""⟩

/-- Start environment for the C5 witness: precheck succeeds; the spawns get
pids 11, 12, 13 and exactly pid 12 (the 8001 forwarder) dies within the
grace period. -/
def startEnvW : StartEnv :=
  ⟨.ok 0, fun pid => pid == 12, fun n => .spawned (11 + n), fun _ => "exited"⟩

/-- Start environment for the C10 witness: precheck succeeds but every
spawned process dies within the grace period. -/
def startEnvAllFail : StartEnv :=
  ⟨.ok 0, fun _ => true, fun n => .spawned (21 + n), fun _ => "exited"⟩

/-- Probe environment for the C7 witness: port 1 times out, port 2 answers
503, 8434 and 8001 answer 200 with well-formed JSON bodies, any other port
answers a bare 200. -/
def probeEnvW : Nat → ProbeOutcome := fun p =>
  if p = 1 then .exc "timed out"
  else if p = 2 then .resp 503 none
  else if p = 8434 then .resp 200 (some ⟨["llama3", "mistral"], none⟩)
  else if p = 8001 then .resp 200 (some ⟨[], some "connected"⟩)
  else .resp 200 none

/-! ## Helper lemmas: stepping the Health-Monitor loop -/

/-- The loop is finished once the fetch index reaches the end of the list. -/
theorem monitorCycleAux_done (e : CycleEnv) (fuel k : Nat) (procs : List Proc)
    (log : List Nat) (n : Nat) (h : ¬ k < procs.length) :
    monitorCycleAux e fuel k procs log n = ⟨procs, log, false⟩ := by
  cases fuel <;> simp [monitorCycleAux, h]

/-- Stepping past a handle whose sampling raised an exception aborts the
cycle into the `except` handler. -/
theorem monitorCycleAux_exc (e : CycleEnv) (f k : Nat) (procs : List Proc)
    (log : List Nat) (n : Nat) (h : k < procs.length)
    (hx : e.pollExc (procs.getD k ⟨0, 0⟩).pid = true) :
    monitorCycleAux e (f + 1) k procs log n = ⟨procs, log, true⟩ := by
  have hx2 : e.pollExc procs[k].pid = true := by
    simpa [List.getElem?_eq_getElem h] using hx
  simp [monitorCycleAux, h, hx2]

/-- Stepping past a live handle leaves the list and the log unchanged. -/
theorem monitorCycleAux_alive (e : CycleEnv) (f k : Nat) (procs : List Proc)
    (log : List Nat) (n : Nat) (h : k < procs.length)
    (hx : e.pollExc (procs.getD k ⟨0, 0⟩).pid = false)
    (hd : e.dead (procs.getD k ⟨0, 0⟩).pid = false) :
    monitorCycleAux e (f + 1) k procs log n =
      monitorCycleAux e f (k + 1) procs log n := by
  have hx2 : e.pollExc procs[k].pid = false := by
    simpa [List.getElem?_eq_getElem h] using hx
  have hd2 : e.dead procs[k].pid = false := by
    simpa [List.getElem?_eq_getElem h] using hd
  simp [monitorCycleAux, h, hx2, hd2]

/-- Stepping past a dead handle removes it and issues one respawn for the
service at the *iteration index*. -/
theorem monitorCycleAux_dead (e : CycleEnv) (f k : Nat) (procs : List Proc)
    (log : List Nat) (n : Nat) (h : k < procs.length)
    (hx : e.pollExc (procs.getD k ⟨0, 0⟩).pid = false)
    (hd : e.dead (procs.getD k ⟨0, 0⟩).pid = true)
    (hs : k < services.length) :
    monitorCycleAux e (f + 1) k procs log n =
      monitorCycleAux e f (k + 1)
        (create_tunnel e.dead e.stderrOf (e.spawn n)
          (services.getD k (0, ⟨0, "", ""⟩)).1
          (services.getD k (0, ⟨0, "", ""⟩)).2.remote
          (services.getD k (0, ⟨0, "", ""⟩)).2.name
          (removePid procs (procs.getD k ⟨0, 0⟩).pid)).procs
        (log ++ [(services.getD k (0, ⟨0, "", ""⟩)).1]) (n + 1) := by
  have hx2 : e.pollExc procs[k].pid = false := by
    simpa [List.getElem?_eq_getElem h] using hx
  have hd2 : e.dead procs[k].pid = true := by
    simpa [List.getElem?_eq_getElem h] using hd
  simp [monitorCycleAux, h, hx2, hd2, hs, List.getElem?_eq_getElem h]

/-! ## C1: death detection and respawn in the Health Monitor -/

/-- **C1, counterexample.**  The claim says a dead handle's respawn attempt
is issued for the ServiceSpec whose `local_port` the dead handle was
forwarding.  Start from the aligned post-startup fleet `initProcs`.  In the
first cycle the 8080 forwarder (pid 1) dies; its respawn (pid 4, forwarding
8080) is appended at the *end* of the process list.  In the second cycle
pid 4 — a tracked handle forwarding local port 8080 — is dead
(`cycleEnvB.dead 4 = true`); the cycle removes it but issues its single
respawn attempt with `local_port = list(self.services.keys())[2] = 8434`,
a different service's spec (`respawned = [8434]`, and `8434 ≠ 8080`). -/
theorem C1_counterexample :
    monitorRun [cycleEnvA, cycleEnvB] ⟨initProcs, true⟩ =
      (⟨[⟨2, 8001⟩, ⟨3, 8434⟩, ⟨5, 8434⟩], true⟩,
       [(⟨[⟨2, 8001⟩, ⟨3, 8434⟩, ⟨4, 8080⟩], [8080], false⟩, 10),
        (⟨[⟨2, 8001⟩, ⟨3, 8434⟩, ⟨5, 8434⟩], [8434], false⟩, 10)]) ∧
    cycleEnvB.dead 4 = true ∧ (8434 : Nat) ≠ 8080 := by
  decide

/-- **C1, amended.**  If the tracked process list is position-aligned with
the services registry (process `i` forwards the `i`-th configured local
port), exactly one tracked process (the one at index `j`) has died, no
unexpected exception occurs, and the respawned process survives its grace
period, then the next Health-Monitor cycle removes the dead handle and
issues exactly one respawn attempt, for the dead handle's own service.  (The
respawn's spec is chosen by the handle's *index*, so this coincidence with
the dead handle's service is exactly what the alignment hypotheses buy; see
the counterexample for the misaligned case.) -/
theorem C1_respawn_same_service_when_aligned
    (e : CycleEnv) (a b c : Proc) (q j : Nat) (hj : j < 3)
    (ha : a.port = 8080) (hb : b.port = 8001) (hc : c.port = 8434)
    (hda : e.dead a.pid = decide (j = 0))
    (hdb : e.dead b.pid = decide (j = 1))
    (hdc : e.dead c.pid = decide (j = 2))
    (hxa : e.pollExc a.pid = false) (hxb : e.pollExc b.pid = false)
    (hxc : e.pollExc c.pid = false) (hxq : e.pollExc q = false)
    (hq : e.spawn 0 = .spawned q) (hqd : e.dead q = false) :
    monitorCycle e [a, b, c] =
      ⟨([a, b, c].eraseIdx j) ++ [⟨q, ([a, b, c].getD j ⟨0, 0⟩).port⟩],
       [([a, b, c].getD j ⟨0, 0⟩).port], false⟩ := by
  interval_cases j
  · norm_num at hda hdb hdc
    simp [monitorCycle, monitorCycleAux, services, removePid, create_tunnel,
      hda, hdb, hdc, hxa, hxb, hxc, hxq, hq, hqd, ha]
  · norm_num at hda hdb hdc
    have hab : ¬ (a.pid = b.pid) := by
      intro h
      rw [h, hdb] at hda
      exact absurd hda (by simp)
    simp [monitorCycle, monitorCycleAux, services, removePid, create_tunnel,
      hda, hdb, hdc, hxa, hxb, hxc, hxq, hq, hqd, hb, hab]
  · norm_num at hda hdb hdc
    have hac : ¬ (a.pid = c.pid) := by
      intro h
      rw [h, hdc] at hda
      exact absurd hda (by simp)
    have hbc : ¬ (b.pid = c.pid) := by
      intro h
      rw [h, hdc] at hdb
      exact absurd hdb (by simp)
    simp [monitorCycle, monitorCycleAux, services, removePid, create_tunnel,
      hda, hdb, hdc, hxa, hxb, hxc, hxq, hq, hqd, hc, hac, hbc]

/-- **C1, witness** for the amended theorem: aligned fleet, the 8001
forwarder (pid 2, index 1) has died, the respawn (pid 9) survives; the cycle
removes pid 2 and respawns exactly the 8001 service. -/
theorem C1_witness :
    (1 : Nat) < 3 ∧
    cycleEnvW1.dead 2 = decide ((1 : Nat) = 1) ∧
    monitorCycle cycleEnvW1 [⟨1, 8080⟩, ⟨2, 8001⟩, ⟨3, 8434⟩] =
      ⟨[⟨1, 8080⟩, ⟨3, 8434⟩, ⟨9, 8001⟩], [8001], false⟩ :=
  ⟨by decide, by decide,
    C1_respawn_same_service_when_aligned cycleEnvW1 ⟨1, 8080⟩ ⟨2, 8001⟩
      ⟨3, 8434⟩ 9 1 (by decide) rfl rfl rfl (by decide) (by decide)
      (by decide) rfl rfl rfl rfl rfl (by decide)⟩

/-! ## C2: spawn failure within the grace period -/

/-- **C2, counterexample.**  The claim says a handle that dies before the
grace period never enters the registry: after `create_tunnel` returns
failure the registry should equal its value before the call.  But the code
appends the process object to `self.processes` *before* the grace-period
check and never removes it on failure: starting from an empty list, a spawn
that dies within the grace period returns failure yet leaves the dead
process tracked. -/
theorem C2_counterexample :
    (create_tunnel (fun _ => true) (fun _ => "bind: address already in use")
        (.spawned 7) 8434 8434 "Ollama AI API" []).ok = false ∧
    (create_tunnel (fun _ => true) (fun _ => "bind: address already in use")
        (.spawned 7) 8434 8434 "Ollama AI API" []).procs ≠ [] := by
  decide

/-- **C2, amended.**  If the spawned forwarding process dies before the
grace period elapses, `create_tunnel` returns failure and reports the
process's captured error output — but the dead process *remains appended to
the supervisor's tracked process list* (the registry grows by the dead
handle instead of being unchanged). -/
theorem C2_spawn_failure_keeps_process
    (dead : Nat → Bool) (stderrOf : Nat → String) (pid lp rp : Nat)
    (nm : String) (procs : List Proc) (h : dead pid = true) :
    create_tunnel dead stderrOf (.spawned pid) lp rp nm procs =
      ⟨false, procs ++ [⟨pid, lp⟩], [spawnFailureMsg nm (stderrOf pid)]⟩ := by
  simp [create_tunnel, h]

/-- **C2, witness**: a concrete spawn that dies within the grace period,
failure reported with the captured stderr, dead process left tracked. -/
theorem C2_witness :
    ((fun _ => true) : Nat → Bool) 7 = true ∧
    create_tunnel (fun _ => true) (fun _ => "connection refused")
        (.spawned 7) 8001 8001 "Backend API" [] =
      ⟨false, [⟨7, 8001⟩], [spawnFailureMsg "Backend API" "connection refused"]⟩ :=
  ⟨rfl, C2_spawn_failure_keeps_process (fun _ => true)
    (fun _ => "connection refused") 7 8001 8001 "Backend API" [] rfl⟩

/-! ## C3: probing of services absent from the registry -/

/-- **C3, counterexample.**  The claim says a service whose `create` failed
(absent from the registry) is reported as not reachable *without issuing any
HTTP request*, and that only Active services are probed.  But `test_services`
never consults `self.processes` at all: its request list — the same whatever
the tracked state, including the state where 8434's create failed and the
run where every create failed — contains a URL for every configured service,
8434 included.  The report for 8434 comes from the connection error raised
by that attempted request. -/
theorem C3_counterexample :
    (test_services (fun _ => ProbeOutcome.exc "Connection refused")).2 =
      [probeUrl 8080, probeUrl 8001, probeUrl 8434] ∧
    probeUrl 8434 = "http://localhost:8434/api/tags" ∧
    (test_services (fun _ => ProbeOutcome.exc "Connection refused")).1 =
      [(8080, [.failed "Frontend (The Ark UI)" "Connection refused"]),
       (8001, [.failed "Backend API" "Connection refused"]),
       (8434, [.failed "Ollama AI API" "Connection refused"])] := by
  decide

/-- **C3, amended.**  The Reachability Prober probes every configured
service regardless of the registry: the request list always contains all
three configured URLs, and a service whose tunnel is absent (connection
refused on the attempted request) is reported as failed with the error
text rather than being skipped. -/
theorem C3_probe_all_services (env : Nat → ProbeOutcome) (msg : String)
    (h : env 8434 = .exc msg) :
    (test_services env).2 = [probeUrl 8080, probeUrl 8001, probeUrl 8434] ∧
    (test_services env).1.map Prod.fst = [8080, 8001, 8434] ∧
    (8434, [ReportLine.failed "Ollama AI API" msg]) ∈ (test_services env).1 := by
  refine ⟨rfl, rfl, ?_⟩
  simp [test_services, services, probeService, h]

/-- **C3, witness**: concrete probe environment in which 8434's connection
is refused while the others answer 200. -/
theorem C3_witness :
    (fun p => if p = 8434 then ProbeOutcome.exc "Connection refused"
              else ProbeOutcome.resp 200 none : Nat → ProbeOutcome) 8434 =
      ProbeOutcome.exc "Connection refused" ∧
    ((test_services (fun p => if p = 8434 then ProbeOutcome.exc "Connection refused"
        else ProbeOutcome.resp 200 none)).2 =
      [probeUrl 8080, probeUrl 8001, probeUrl 8434] ∧
    (test_services (fun p => if p = 8434 then ProbeOutcome.exc "Connection refused"
        else ProbeOutcome.resp 200 none)).1.map Prod.fst = [8080, 8001, 8434] ∧
    (8434, [ReportLine.failed "Ollama AI API" "Connection refused"]) ∈
      (test_services (fun p => if p = 8434 then ProbeOutcome.exc "Connection refused"
        else ProbeOutcome.resp 200 none)).1) :=
  ⟨by decide,
   C3_probe_all_services
     (fun p => if p = 8434 then ProbeOutcome.exc "Connection refused"
               else ProbeOutcome.resp 200 none)
     "Connection refused" (by decide)⟩

/-! ## C4: exceptions inside a Health-Monitor cycle -/

/-- **C4, counterexample.**  The claim says that when handling one handle
raises, the remaining handles in that same cycle are still sampled.  But the
`try` of `monitor_tunnels` wraps the *whole* `for` loop: an exception raised
while sampling the first handle (pid 1) aborts the cycle, and the second
handle (pid 2) — whose process has exited (`cycleEnvExc.dead 2 = true`) —
is neither removed nor respawned in that cycle (`respawned = []`). -/
theorem C4_counterexample :
    monitorCycle cycleEnvExc [⟨1, 8080⟩, ⟨2, 8001⟩] =
      ⟨[⟨1, 8080⟩, ⟨2, 8001⟩], [], true⟩ ∧
    cycleEnvExc.dead 2 = true ∧ cycleEnvExc.pollExc 1 = true := by
  decide

/-- **C4, amended.**  An exception raised while handling one handle aborts
the *rest of that cycle* (the remaining handles are not sampled until the
next cycle); the loop sleeps 5 seconds instead of the normal 10 for that
iteration and then continues with future cycles, in which the remaining
dead handle is detected, removed and respawned. -/
theorem C4_error_backoff_and_next_cycle
    (e1 e2 : CycleEnv) (a b : Proc) (q : Nat)
    (h1 : e1.pollExc a.pid = true)
    (hxa : e2.pollExc a.pid = false) (hxb : e2.pollExc b.pid = false)
    (hda : e2.dead a.pid = false) (hdb : e2.dead b.pid = true)
    (hq : e2.spawn 0 = .spawned q) (hqd : e2.dead q = false)
    (hbp : b.port = 8001) :
    monitorRun [e1, e2] ⟨[a, b], true⟩ =
      (⟨[a, ⟨q, b.port⟩], true⟩,
       [(⟨[a, b], [], true⟩, 5), (⟨[a, ⟨q, b.port⟩], [8001], false⟩, 10)]) := by
  have hab : ¬ (a.pid = b.pid) := by
    intro h
    rw [h, hdb] at hda
    exact absurd hda (by simp)
  simp [monitorRun, monitorCycle, monitorCycleAux, services, removePid,
    create_tunnel, h1, hxa, hxb, hda, hdb, hq, hqd, hbp, hab]

/-- **C4, witness**: concrete two-cycle run; the first cycle is aborted by
an exception at pid 1 (5-second backoff, nothing removed), the second cycle
detects dead pid 2, removes it and respawns the 8001 service. -/
theorem C4_witness :
    cycleEnvC4a.pollExc 1 = true ∧
    monitorRun [cycleEnvC4a, cycleEnvC4b] ⟨[⟨1, 8080⟩, ⟨2, 8001⟩], true⟩ =
      (⟨[⟨1, 8080⟩, ⟨7, 8001⟩], true⟩,
       [(⟨[⟨1, 8080⟩, ⟨2, 8001⟩], [], true⟩, 5),
        (⟨[⟨1, 8080⟩, ⟨7, 8001⟩], [8001], false⟩, 10)]) :=
  ⟨by decide,
   C4_error_backoff_and_next_cycle cycleEnvC4a cycleEnvC4b ⟨1, 8080⟩
     ⟨2, 8001⟩ 7 (by decide) rfl rfl (by decide) (by decide) rfl
     (by decide) rfl⟩

/-! ## Helper lemmas for start_tunnels and monitorRun -/

/-- The start loop attempts every spec in order, whatever the outcomes. -/
theorem startLoop_map_fst (env : StartEnv) (svs : List (Nat × ServiceConfig))
    (procs : List Proc) (n : Nat) :
    (startLoop env svs procs n).2.map Prod.fst = svs.map Prod.fst := by
  induction svs generalizing procs n with
  | nil => rfl
  | cons sv rest ih => simp [startLoop, ih]

/-- Splitting an attempt record into successes and failures is lossless. -/
theorem length_filter_bool (l : List (Nat × Bool)) :
    (l.filter (·.2)).length + (l.filter (fun x => !x.2)).length = l.length := by
  induction l with
  | nil => rfl
  | cons a t ih =>
    cases h : a.2 <;> simp [List.filter_cons, h] <;> omega

/-- The monitoring loop never writes the `running` flag. -/
theorem monitorRun_running (envs : List CycleEnv) (s : TunnelState) :
    (monitorRun envs s).1.running = s.running := by
  induction envs generalizing s with
  | nil => rfl
  | cons e rest ih =>
    cases h : s.running
    · simp [monitorRun, h]
    · simp [monitorRun, h, ih]

/-! ## C5: aggregation in start_tunnels -/

/-- **C5.**  With a successful precheck, `start_tunnels` attempts `create`
for every configured service in order — regardless of earlier failures (the
attempt record's ports are always exactly `[8080, 8001, 8434]`) — returns
overall success iff the number of successful spawns is positive, and the
successful and failed attempts partition the three services (the failed
ports being exactly those whose `create` returned failure). -/
theorem C5_start_all_aggregates (env : StartEnv) (s : TunnelState)
    (h : check_ssh_key env.precheck = true) :
    (start_tunnels env s).attempts.map Prod.fst = [8080, 8001, 8434] ∧
    ((start_tunnels env s).ok = true ↔
      0 < ((start_tunnels env s).attempts.filter (·.2)).length) ∧
    ((start_tunnels env s).attempts.filter (·.2)).length +
      ((start_tunnels env s).attempts.filter (fun x => !x.2)).length = 3 := by
  have hatt : (start_tunnels env s).attempts =
      (startLoop env services s.processes 0).2 := by
    simp [start_tunnels, h]
  have hok : (start_tunnels env s).ok =
      decide (0 < ((startLoop env services s.processes 0).2.filter (·.2)).length) := by
    simp [start_tunnels, h]
  have hmap := startLoop_map_fst env services s.processes 0
  have hlen : (startLoop env services s.processes 0).2.length = 3 := by
    have h2 := congrArg List.length hmap
    simpa [services] using h2
  refine ⟨by rw [hatt]; simpa [services] using hmap, ?_, ?_⟩
  · rw [hok, hatt]
    exact decide_eq_true_iff
  · rw [hatt]
    have h3 := length_filter_bool (startLoop env services s.processes 0).2
    omega

/-- **C5, witness**: precheck ok, spawn fails for exactly the 8001 service;
`attempts = [(8080, true), (8001, false), (8434, true)]`, overall success. -/
theorem C5_witness :
    check_ssh_key startEnvW.precheck = true ∧
    (start_tunnels startEnvW ⟨[], false⟩).attempts =
      [(8080, true), (8001, false), (8434, true)] ∧
    ((start_tunnels startEnvW ⟨[], false⟩).attempts.map Prod.fst =
        [8080, 8001, 8434] ∧
     ((start_tunnels startEnvW ⟨[], false⟩).ok = true ↔
       0 < ((start_tunnels startEnvW ⟨[], false⟩).attempts.filter (·.2)).length) ∧
     ((start_tunnels startEnvW ⟨[], false⟩).attempts.filter (·.2)).length +
       ((start_tunnels startEnvW ⟨[], false⟩).attempts.filter (fun x => !x.2)).length = 3) :=
  ⟨by decide, by decide, C5_start_all_aggregates startEnvW ⟨[], false⟩ (by decide)⟩

/-! ## C6: teardown -/

/-- **C6.**  `stop_tunnels` leaves the registry empty with `running = false`;
a graceful terminate is issued for every tracked process; a force-kill is
issued for every process whose wait timed out (it was still alive after the
5-second grace); and the call is idempotent — a second invocation finds the
empty registry, changes nothing and emits no events. -/
theorem C6_terminate_all_idempotent (env env2 : Nat → TermBehavior)
    (s : TunnelState) :
    (stop_tunnels env s).1 = ⟨[], false⟩ ∧
    s.processes.all
      (fun p => (stop_tunnels env s).2.contains (StopEvent.term p.pid)) = true ∧
    s.processes.all
      (fun p => !(env p.pid == TermBehavior.timeoutKill) ||
        (stop_tunnels env s).2.contains (StopEvent.kill p.pid)) = true ∧
    stop_tunnels env2 (stop_tunnels env s).1 = ((stop_tunnels env s).1, []) := by
  refine ⟨rfl, ?_, ?_, rfl⟩
  · rw [List.all_eq_true]
    intro p hp
    apply List.elem_eq_true_of_mem
    exact List.mem_flatten_of_mem (List.mem_map_of_mem _ hp)
      (by cases h : env p.pid <;> simp [stopOne, h])
  · rw [List.all_eq_true]
    intro p hp
    cases h : env p.pid with
    | ok => simp [h]
    | raisedTerm => simp [h]
    | timeoutKill =>
      have hm : StopEvent.kill p.pid ∈ (stop_tunnels env s).2 :=
        List.mem_flatten_of_mem (List.mem_map_of_mem _ hp)
          (by simp [stopOne, h])
      simp [h]
      exact hm

/-! ## C7: probe classification -/

/-- **C7.**  The prober's per-service handler is a *total* function from
probe outcomes to report lines (the loop body is wrapped in a catch-all
`except`, so no exception passes the prober boundary), and it classifies:
an exception (timeout, refused connection, transport error) as failed with
the error text; any non-200 status as failed with the status code; a 200 on
the JsonCount service (8434) as healthy with the length of the `models`
list; a 200 on the JsonStatus service (8001) as healthy with the `database`
string field; and a 200 on any other (Generic) service as healthy with no
extra detail. -/
theorem C7_probe_classification (env : Nat → ProbeOutcome)
    (cfg1 cfg2 cfg3 cfg4 cfg5 : ServiceConfig) (p1 p2 p5 : Nat) (m : String)
    (code : Nat) (b2 b5 : Option BodyData) (bd3 bd4 : BodyData)
    (h1 : env p1 = .exc m)
    (h2 : env p2 = .resp code b2) (hcode : code ≠ 200)
    (h3 : env 8434 = .resp 200 (some bd3))
    (h4 : env 8001 = .resp 200 (some bd4))
    (h5 : env p5 = .resp 200 b5) (h5a : p5 ≠ 8434) (h5b : p5 ≠ 8001) :
    probeService env p1 cfg1 = [.failed cfg1.name m] ∧
    probeService env p2 cfg2 = [.httpError cfg2.name code] ∧
    probeService env 8434 cfg3 =
      [.healthy cfg3.name, .modelCount bd3.models.length] ∧
    probeService env 8001 cfg4 =
      [.healthy cfg4.name, .dbStatus (bd4.database.getD "unknown")] ∧
    probeService env p5 cfg5 = [.healthy cfg5.name] := by
  refine ⟨?_, ?_, ?_, ?_, ?_⟩
  · simp [probeService, h1]
  · simp [probeService, h2, hcode]
  · simp [probeService, h3]
  · simp [probeService, h4]
  · simp [probeService, h5, h5a, h5b]

/-- **C7, witness**: one environment exercising all five classifications at
once (ports 1, 2, 8434, 8001 and 8080). -/
theorem C7_witness :
    probeEnvW 1 = .exc "timed out" ∧
    (probeService probeEnvW 1 ⟨0, "A", "u"⟩ = [.failed "A" "timed out"] ∧
     probeService probeEnvW 2 ⟨0, "B", "u"⟩ = [.httpError "B" 503] ∧
     probeService probeEnvW 8434 ⟨0, "C", "u"⟩ =
       [.healthy "C", .modelCount (["llama3", "mistral"] : List String).length] ∧
     probeService probeEnvW 8001 ⟨0, "D", "u"⟩ =
       [.healthy "D", .dbStatus ((some "connected").getD "unknown")] ∧
     probeService probeEnvW 8080 ⟨0, "E", "u"⟩ = [.healthy "E"]) :=
  ⟨by decide,
   C7_probe_classification probeEnvW ⟨0, "A", "u"⟩ ⟨0, "B", "u"⟩ ⟨0, "C", "u"⟩
     ⟨0, "D", "u"⟩ ⟨0, "E", "u"⟩ 1 2 8080 "timed out" 503 none none
     ⟨["llama3", "mistral"], none⟩
     ⟨[], some "connected"⟩ (by decide) (by decide) (by decide) (by decide)
     (by decide) (by decide) (by decide) (by decide)⟩

/-! ## C8: the transport precheck gate -/

/-- **C8.**  `check_ssh_key` returns true iff the no-op remote command
completed with exit code 0 (a timeout raises `TimeoutExpired`, any failure
to complete is the exception case, and both return false); and when it
returns false, `start_tunnels` aborts before any tunnel-creation attempt:
it returns failure with an empty attempt record and the state — registry
included — exactly as it was before the call. -/
theorem C8_precheck_gate (env : StartEnv) (s : TunnelState) :
    (check_ssh_key env.precheck = true ↔ env.precheck = .ok 0) ∧
    (check_ssh_key env.precheck = false →
      start_tunnels env s = ⟨false, s, []⟩) := by
  constructor
  · cases h : env.precheck with
    | ok rc => simp [check_ssh_key]
    | error e => simp [check_ssh_key]
  · intro h
    simp [start_tunnels, h]

/-- **C8, witness**: a timeout exception makes the precheck false and
`start_tunnels` returns failure leaving the (empty) registry untouched. -/
theorem C8_witness :
    check_ssh_key (Except.error "TimeoutExpired") = false ∧
    start_tunnels ⟨.error "TimeoutExpired", fun _ => false, fun _ => .raised,
        fun _ => ""⟩ ⟨[], false⟩ = ⟨false, ⟨[], false⟩, []⟩ :=
  ⟨rfl,
   (C8_precheck_gate ⟨.error "TimeoutExpired", fun _ => false,
     fun _ => .raised, fun _ => ""⟩ ⟨[], false⟩).2 rfl⟩

/-! ## C9: totality at the subprocess boundary -/

/-- **C9.**  `check_ssh_key` and `create_tunnel` are total over every
behaviour of the spawned external process — both bodies sit inside
catch-all `except Exception` handlers, so each returns a boolean for every
outcome and no exception propagates.  Every exceptional behaviour maps to
the boolean `false`: a failed `subprocess.run`, a `Popen` that raises, an
exception after the process was appended; a spawn that survives sampling
returns `true` exactly when the process is still alive after the grace
period, and a completed precheck returns `true` exactly for exit code 0. -/
theorem C9_boundary_totality (dead : Nat → Bool) (stderrOf : Nat → String)
    (lp rp : Nat) (nm : String) (procs : List Proc) :
    (∀ msg : String, check_ssh_key (.error msg) = false) ∧
    (∀ rc : Int, check_ssh_key (.ok rc) = (rc == 0)) ∧
    (create_tunnel dead stderrOf .raised lp rp nm procs).ok = false ∧
    (∀ pid, (create_tunnel dead stderrOf (.spawnedRaised pid) lp rp nm procs).ok
      = false) ∧
    (∀ pid, (create_tunnel dead stderrOf (.spawned pid) lp rp nm procs).ok
      = !(dead pid)) := by
  refine ⟨fun _ => rfl, fun _ => rfl, rfl, fun _ => rfl, fun pid => ?_⟩
  cases h : dead pid <;> simp [create_tunnel, h]

/-! ## C10: the running flag -/

/-- **C10.**  Whenever the transport precheck succeeds, `start_tunnels`
sets `running` to true (the loop over the specs runs with the flag already
set, and the flag is true in the returned state for *every* spawn
environment — in particular when every spawn failed and the call returns
overall failure); the Health-Monitor loop never changes the flag; and
`stop_tunnels` — the shutdown path — is what sets it back to false. -/
theorem C10_running_flag (env : StartEnv) (s : TunnelState)
    (envs : List CycleEnv) (tenv : Nat → TermBehavior)
    (h : check_ssh_key env.precheck = true) :
    (start_tunnels env s).state.running = true ∧
    (monitorRun envs (start_tunnels env s).state).1.running = true ∧
    (stop_tunnels tenv (start_tunnels env s).state).1.running = false := by
  have h1 : (start_tunnels env s).state.running = true := by
    simp [start_tunnels, h]
  exact ⟨h1, by rw [monitorRun_running]; exact h1, rfl⟩

/-- **C10, witness**: precheck succeeds but every spawn dies in the grace
period — `start_tunnels` returns overall failure, yet `running` is true and
stays true across a monitor cycle; `stop_tunnels` resets it. -/
theorem C10_witness :
    check_ssh_key startEnvAllFail.precheck = true ∧
    (start_tunnels startEnvAllFail ⟨[], false⟩).ok = false ∧
    ((start_tunnels startEnvAllFail ⟨[], false⟩).state.running = true ∧
     (monitorRun [] (start_tunnels startEnvAllFail ⟨[], false⟩).state).1.running
       = true ∧
     (stop_tunnels (fun _ => .ok)
       (start_tunnels startEnvAllFail ⟨[], false⟩).state).1.running = false) :=
  ⟨by decide, by decide,
   C10_running_flag startEnvAllFail ⟨[], false⟩ [] (fun _ => .ok) (by decide)⟩

end ArkTunnel
